import Mathlib

/-!
Verification of the vLLM proxy (proxy/app/main.py) against its
natural-language specification.

The file shallowly embeds the proxy source: JSON values are an inductive
type, Python dynamic operations (truthiness, `in`, `.get`, subscript,
iteration) are explicit functions returning `Except PyErr _` where the
Python code can raise, bytes are `List Nat`, and the request pipeline is
explicit data flow.  Behaviour of the surrounding frameworks (FastAPI /
Starlette routing and default error mapping, httpx) is modelled only where
the source relies on it, with a comment naming the relied-on behaviour.
-/

namespace VllmProxy

/-! ### Character constants

The JSON punctuation and escape characters, named once by code point and
used throughout the decoder, parser and renderers. -/

def chQuote : Char := Char.ofNat 34
def chBackslash : Char := Char.ofNat 92
def chLBrace : Char := Char.ofNat 123
def chRBrace : Char := Char.ofNat 125
def chLBrack : Char := Char.ofNat 91
def chRBrack : Char := Char.ofNat 93
def chSQuote : Char := Char.ofNat 39
def chRepl : Char := Char.ofNat 0xFFFD

/-! ### Small list and string helpers -/

/-- Digits of a natural number, most significant first.  Fuel-structural so it
reduces inside the kernel. -/
def natDigitsAux : Nat → Nat → List Char
  | 0, _ => []
  | Nat.succ f, n =>
    if n < 10 then [Char.ofNat (48 + n)]
    else natDigitsAux f (n / 10) ++ [Char.ofNat (48 + n % 10)]

def natDigits (n : Nat) : List Char := natDigitsAux (n + 1) n

def intDigits (i : Int) : List Char :=
  if i < 0 then '-' :: natDigits i.natAbs else natDigits i.natAbs

/-- Python str.strip() on the ASCII whitespace class (the Unicode-only space
characters never occur in the SSE framing this proxy handles). -/
def isPySpace (c : Char) : Bool :=
  c = ' ' || c = '\t' || c = '\n' || c = '\r' || c = Char.ofNat 11 || c = Char.ofNat 12

def pyStrip (l : List Char) : List Char :=
  ((l.dropWhile isPySpace).reverse.dropWhile isPySpace).reverse

/-- Substring containment test on character lists ("needle in haystack"). -/
def containsSub (pat : List Char) : List Char → Bool
  | [] => pat.isEmpty
  | c :: rest => pat.isPrefixOf (c :: rest) || containsSub pat rest

/-- Everything after the first occurrence of `pat`, i.e. the Python expression
`s.split(pat, 1)[1]`; returns `[]` when `pat` does not occur (the proxy only
evaluates it under a guard that guarantees an occurrence). -/
def afterFirst (pat : List Char) : List Char → List Char
  | [] => []
  | c :: rest =>
    if pat.isPrefixOf (c :: rest) then (c :: rest).drop pat.length
    else afterFirst pat rest

def joinSep (sep : List Char) : List (List Char) → List Char
  | [] => []
  | [x] => x
  | x :: y :: rest => x ++ sep ++ joinSep sep (y :: rest)

/-! ### The JSON data model

Python json.loads produces: None, bool, int, float, str, list, dict.  An int
keeps `exponent = 0` and `isFloat = false`; a literal with a fraction or an
exponent becomes a float, kept exactly as mantissa times ten to the exponent
(64-bit float rounding of extreme literals is not modelled; no claim compares
float magnitudes).  Python json.loads also accepts the non-standard literals
NaN, Infinity and -Infinity, kept as dedicated constructors. -/

structure JsonNumber where
  mantissa : Int
  exponent : Int
  isFloat : Bool
deriving DecidableEq

inductive Json where
  | null
  | bool (b : Bool)
  | num (n : JsonNumber)
  | str (s : String)
  | arr (xs : List Json)
  | obj (kvs : List (String × Json))
  | nan
  | inf
  | ninf

/-- Shorthand for the Python int `n` as a JSON value. -/
def Json.int (i : Int) : Json := .num ⟨i, 0, false⟩

/-- First binding of `k` (Python dicts have unique keys, so first = only). -/
def jlookup (kvs : List (String × Json)) (k : String) : Option Json :=
  match kvs with
  | [] => none
  | (k2, v) :: rest => if k2 = k then some v else jlookup rest k

def jhasKey (kvs : List (String × Json)) (k : String) : Bool :=
  match kvs with
  | [] => false
  | (k2, _) :: rest => k2 = k || jhasKey rest k

/-- dict insertion as used when building a parsed object: an existing key is
overwritten in place (Python keeps first-insertion order, last value). -/
def jinsert (kvs : List (String × Json)) (k : String) (v : Json) :
    List (String × Json) :=
  match kvs with
  | [] => [(k, v)]
  | (k2, v2) :: rest =>
    if k2 = k then (k2, v) :: rest else (k2, v2) :: jinsert rest k v

/-! ### Python dynamic semantics on JSON values -/

inductive PyErr where
  | attributeError
  | typeError
  | keyError
  | jsonDecodeError
  | unicodeDecodeError
deriving DecidableEq

/-- Python truthiness of a decoded-JSON value.  (A float literal so small that
it underflows to 0.0 in Python would be truthy here; no claim depends on it.) -/
def pyTruthy : Json → Bool
  | .null => false
  | .bool b => b
  | .num n => n.mantissa != 0
  | .str s => s.length != 0
  | .arr xs => !xs.isEmpty
  | .obj kvs => !kvs.isEmpty
  | .nan => true
  | .inf => true
  | .ninf => true

/-- Python `x.get(k, d)`: defined on dicts only; any other decoded-JSON value
has no `get` attribute and raises AttributeError. -/
def pyGetD (j : Json) (k : String) (d : Json) : Except PyErr Json :=
  match j with
  | .obj kvs => .ok ((jlookup kvs k).getD d)
  | _ => .error .attributeError

/-- Python `x.get(k)` (default None). -/
def pyGet (j : Json) (k : String) : Except PyErr Json := pyGetD j k .null

/-- Python `needle in x` for a string needle: key test on dicts, substring test
on strings, membership test on lists; TypeError on the other values. -/
def pyIn (needle : String) (j : Json) : Except PyErr Bool :=
  match j with
  | .obj kvs => .ok (jhasKey kvs needle)
  | .str s => .ok (containsSub needle.data s.data)
  | .arr xs =>
    -- Python == of a str against each element: true only on an equal str.
    .ok (xs.any (fun x => match x with | .str s2 => s2 = needle | _ => false))
  | _ => .error .typeError

/-- Python `x[k]` for a string key: dict lookup (KeyError when absent);
strings and lists take integer indices only, so a string key is a TypeError,
as it is on every other value. -/
def pySubscript (j : Json) (k : String) : Except PyErr Json :=
  match j with
  | .obj kvs =>
    match jlookup kvs k with
    | some v => .ok v
    | none => .error .keyError
  | _ => .error .typeError

/-- Python `for x in j`: lists yield their elements, strings their characters
(as one-character strings), dicts their keys; the rest raise TypeError. -/
def pyIter (j : Json) : Except PyErr (List Json) :=
  match j with
  | .arr xs => .ok xs
  | .str s => .ok (s.data.map (fun c => Json.str (String.mk [c])))
  | .obj kvs => .ok (kvs.map (fun kv => Json.str kv.1))
  | _ => .error .typeError

/-! ### UTF-8 decoding

`chunk.decode("utf-8", errors="replace")` is total: every maximal malformed
sequence becomes one U+FFFD and decoding resumes at the offending byte, per
the CPython utf-8 codec.  `utf8DecodeStrict` is the `errors="strict"` variant
used by `json.loads` on bytes (failure raises UnicodeDecodeError). -/

def contOk (b : Nat) : Bool := 128 ≤ b && b ≤ 191

/-- Allowed range of the first continuation byte of a three-byte sequence
(rules out overlong forms after 0xE0 and surrogates after 0xED). -/
def cont1Ok3 (lead c1 : Nat) : Bool :=
  if lead = 224 then 160 ≤ c1 && c1 ≤ 191
  else if lead = 237 then 128 ≤ c1 && c1 ≤ 159
  else contOk c1

/-- Allowed range of the first continuation byte of a four-byte sequence
(rules out overlong forms after 0xF0 and post-U+10FFFF forms after 0xF4). -/
def cont1Ok4 (lead c1 : Nat) : Bool :=
  if lead = 240 then 144 ≤ c1 && c1 ≤ 191
  else if lead = 244 then 128 ≤ c1 && c1 ≤ 143
  else contOk c1

/-- Decode one scalar from the front of the byte list: `none` marks a
malformed sequence (one replacement character under the replace policy); the
returned list resumes after the maximal valid prefix of the sequence. -/
def utf8Step (b : Nat) (rest : List Nat) : Option Char × List Nat :=
  if b ≤ 127 then (some (Char.ofNat b), rest)
  else if 194 ≤ b && b ≤ 223 then
    match rest with
    | c1 :: r2 =>
      if contOk c1 then (some (Char.ofNat ((b - 194 + 2) * 64 + (c1 - 128))), r2)
      else (none, c1 :: r2)
    | [] => (none, [])
  else if 224 ≤ b && b ≤ 239 then
    match rest with
    | c1 :: r2 =>
      if cont1Ok3 b c1 then
        match r2 with
        | c2 :: r3 =>
          if contOk c2 then
            (some (Char.ofNat ((b - 224) * 4096 + (c1 - 128) * 64 + (c2 - 128))), r3)
          else (none, c2 :: r3)
        | [] => (none, [])
      else (none, c1 :: r2)
    | [] => (none, [])
  else if 240 ≤ b && b ≤ 244 then
    match rest with
    | c1 :: r2 =>
      if cont1Ok4 b c1 then
        match r2 with
        | c2 :: r3 =>
          if contOk c2 then
            match r3 with
            | c3 :: r4 =>
              if contOk c3 then
                (some (Char.ofNat
                  ((b - 240) * 262144 + (c1 - 128) * 4096 + (c2 - 128) * 64 + (c3 - 128))), r4)
              else (none, c3 :: r4)
            | [] => (none, [])
          else (none, c2 :: r3)
        | [] => (none, [])
      else (none, c1 :: r2)
    | [] => (none, [])
  else (none, rest)

def utf8DecodeReplaceAux : Nat → List Nat → List Char
  | 0, _ => []
  | Nat.succ f, l =>
    match l with
    | [] => []
    | b :: rest =>
      match utf8Step b rest with
      | (some c, r) => c :: utf8DecodeReplaceAux f r
      | (none, r) => chRepl :: utf8DecodeReplaceAux f r

/-- `bytes.decode("utf-8", errors="replace")`: each step consumes at least one
byte, so fuel `length + 1` always suffices. -/
def utf8DecodeReplace (bytes : List Nat) : List Char :=
  utf8DecodeReplaceAux (bytes.length + 1) bytes

def utf8DecodeStrictAux : Nat → List Nat → Option (List Char)
  | 0, _ => none
  | Nat.succ f, l =>
    match l with
    | [] => some []
    | b :: rest =>
      match utf8Step b rest with
      | (some c, r) => (utf8DecodeStrictAux f r).map (fun cs => c :: cs)
      | (none, _) => none

def utf8DecodeStrict (bytes : List Nat) : Option (List Char) :=
  utf8DecodeStrictAux (bytes.length + 1) bytes

/-! ### json.loads

Recursive-descent over the character list, fuel-structural so every function
is total and kernel-reducible.  The grammar follows the CPython json scanner:
RFC 8259 values plus the NaN / Infinity / -Infinity literals, strings with
escapes and surrogate-pair combination, strict rejection of raw control
characters in strings, numbers by the regex
(-?(0 or nonzero-led digits))(.digits)?([eE][+-]?digits)? . -/

def isDigitCh (c : Char) : Bool := 48 ≤ c.toNat && c.toNat ≤ 57

def isJsonWs (c : Char) : Bool := c = ' ' || c = '\t' || c = '\n' || c = '\r'

def skipWs (l : List Char) : List Char := l.dropWhile isJsonWs

def hexVal (c : Char) : Option Nat :=
  if 48 ≤ c.toNat && c.toNat ≤ 57 then some (c.toNat - 48)
  else if 97 ≤ c.toNat && c.toNat ≤ 102 then some (c.toNat - 87)
  else if 65 ≤ c.toNat && c.toNat ≤ 70 then some (c.toNat - 55)
  else none

def hex4 (a b c d : Char) : Option Nat := do
  let va ← hexVal a
  let vb ← hexVal b
  let vc ← hexVal c
  let vd ← hexVal d
  pure (va * 4096 + vb * 256 + vc * 16 + vd)

/-- JSON string body after the opening quote; returns the decoded characters
and the input after the closing quote.  A `\uXXXX` escape that is a lone
surrogate is legal for Python (the str keeps the surrogate); a Lean `Char`
cannot hold one, so it is rendered U+FFFD here (never load-bearing). -/
def parseStrBody : Nat → List Char → Option (List Char × List Char)
  | 0, _ => none
  | Nat.succ f, l =>
    match l with
    | [] => none
    | c :: rest =>
      if c = chQuote then some ([], rest)
      else if c = chBackslash then
        match rest with
        | [] => none
        | e :: r2 =>
          let simple : Option Char :=
            if e = chQuote then some chQuote
            else if e = chBackslash then some chBackslash
            else if e = '/' then some '/'
            else if e = 'b' then some (Char.ofNat 8)
            else if e = 'f' then some (Char.ofNat 12)
            else if e = 'n' then some '\n'
            else if e = 'r' then some '\r'
            else if e = 't' then some '\t'
            else none
          match simple with
          | some c2 => (parseStrBody f r2).map (fun (s, r) => (c2 :: s, r))
          | none =>
            if e = 'u' then
              match r2 with
              | h1 :: h2 :: h3 :: h4 :: r3 =>
                match hex4 h1 h2 h3 h4 with
                | some n =>
                  if 55296 ≤ n && n ≤ 56319 then
                    -- high surrogate: combined with an immediately following
                    -- low-surrogate escape, as the CPython scanner does
                    match r3 with
                    | b2 :: u2 :: g1 :: g2 :: g3 :: g4 :: r4 =>
                      if b2 = chBackslash && u2 = 'u' then
                        match hex4 g1 g2 g3 g4 with
                        | some m =>
                          if 56320 ≤ m && m ≤ 57343 then
                            (parseStrBody f r4).map (fun (s, r) =>
                              (Char.ofNat (65536 + (n - 55296) * 1024 + (m - 56320)) :: s, r))
                          else (parseStrBody f r3).map (fun (s, r) => (chRepl :: s, r))
                        | none => (parseStrBody f r3).map (fun (s, r) => (chRepl :: s, r))
                      else (parseStrBody f r3).map (fun (s, r) => (chRepl :: s, r))
                    | _ => (parseStrBody f r3).map (fun (s, r) => (chRepl :: s, r))
                  else if 56320 ≤ n && n ≤ 57343 then
                    (parseStrBody f r3).map (fun (s, r) => (chRepl :: s, r))
                  else (parseStrBody f r3).map (fun (s, r) => (Char.ofNat n :: s, r))
                | none => none
              | _ => none
            else none
      else if c.toNat < 32 then none
      else (parseStrBody f rest).map (fun (s, r) => (c :: s, r))

def spanDigits : List Char → List Char × List Char
  | [] => ([], [])
  | c :: rest =>
    if isDigitCh c then
      let (d, r) := spanDigits rest
      (c :: d, r)
    else ([], c :: rest)

def digitsToNat (ds : List Char) : Nat :=
  ds.foldl (fun a c => a * 10 + (c.toNat - 48)) 0

/-- The CPython json NUMBER_RE: sign, int part (0, or digits not led by 0),
optional fraction (dot plus at least one digit), optional exponent. -/
def parseNumber (l : List Char) : Option (Json × List Char) :=
  let (neg, l1) := match l with | '-' :: r => (true, r) | _ => (false, l)
  match l1 with
  | [] => none
  | c :: _ =>
    if !isDigitCh c then none
    else
      let (ids, r2) :=
        match l1 with
        | '0' :: r => (['0'], r)
        | _ => spanDigits l1
      let (fds, r3, hasFrac) :=
        match r2 with
        | '.' :: r =>
          match spanDigits r with
          | ([], _) => ([], r2, false)
          | (d, rr) => (d, rr, true)
        | _ => ([], r2, false)
      let (expVal, r4, hasExp) :=
        match r3 with
        | e :: r =>
          if e = 'e' || e = 'E' then
            let (esign, re) := match r with
              | '-' :: rr => ((-1 : Int), rr)
              | '+' :: rr => ((1 : Int), rr)
              | _ => ((1 : Int), r)
            match spanDigits re with
            | ([], _) => ((0 : Int), r3, false)
            | (d, rr) => (esign * (digitsToNat d : Int), rr, true)
          else ((0 : Int), r3, false)
        | [] => ((0 : Int), r3, false)
      let mant : Nat := digitsToNat (ids ++ fds)
      let m : Int := if neg then -(mant : Int) else (mant : Int)
      some (Json.num ⟨m, expVal - (fds.length : Int), hasFrac || hasExp⟩, r4)

mutual

def parseVal : Nat → List Char → Option (Json × List Char)
  | 0, _ => none
  | Nat.succ f, l =>
    match l with
    | [] => none
    | c :: rest =>
      if c = chQuote then
        (parseStrBody (rest.length + 1) rest).map
          (fun (s, r) => (Json.str (String.mk s), r))
      else if c = chLBrace then
        match skipWs rest with
        | c2 :: r2 =>
          if c2 = chRBrace then some (Json.obj [], r2)
          else parseMembers f (c2 :: r2) []
        | [] => none
      else if c = chLBrack then
        match skipWs rest with
        | c2 :: r2 =>
          if c2 = chRBrack then some (Json.arr [], r2)
          else parseElems f (c2 :: r2) []
        | [] => none
      else if "true".data.isPrefixOf l then some (.bool true, l.drop 4)
      else if "false".data.isPrefixOf l then some (.bool false, l.drop 5)
      else if "null".data.isPrefixOf l then some (.null, l.drop 4)
      else if "NaN".data.isPrefixOf l then some (.nan, l.drop 3)
      else if "Infinity".data.isPrefixOf l then some (.inf, l.drop 8)
      else if "-Infinity".data.isPrefixOf l then some (.ninf, l.drop 9)
      else parseNumber l

def parseMembers : Nat → List Char → List (String × Json) →
    Option (Json × List Char)
  | 0, _, _ => none
  | Nat.succ f, l, acc =>
    match l with
    | [] => none
    | c :: rest =>
      if c = chQuote then
        match parseStrBody (rest.length + 1) rest with
        | some (k, r2) =>
          match skipWs r2 with
          | ':' :: r3 =>
            match parseVal f (skipWs r3) with
            | some (v, r4) =>
              let acc2 := jinsert acc (String.mk k) v
              match skipWs r4 with
              | ',' :: r5 => parseMembers f (skipWs r5) acc2
              | c2 :: r5 =>
                if c2 = chRBrace then some (Json.obj acc2, r5) else none
              | [] => none
            | none => none
          | _ => none
        | none => none
      else none

def parseElems : Nat → List Char → List Json → Option (Json × List Char)
  | 0, _, _ => none
  | Nat.succ f, l, acc =>
    match parseVal f l with
    | some (v, r) =>
      match skipWs r with
      | ',' :: r2 => parseElems f (skipWs r2) (acc ++ [v])
      | c :: r2 =>
        if c = chRBrack then some (Json.arr (acc ++ [v]), r2) else none
      | [] => none
    | none => none

end

/-- json.loads on text: one value, surrounding whitespace allowed, anything
else is a JSONDecodeError.  Fuel 3·length + 8 is generous: every recursive
call consumes at least one character of the remaining input. -/
def jsonLoads (l : List Char) : Except PyErr Json :=
  match parseVal (3 * l.length + 8) (skipWs l) with
  | some (v, r) => if (skipWs r).isEmpty then .ok v else .error .jsonDecodeError
  | none => .error .jsonDecodeError

/-- json.loads on bytes (request.json, resp.json): strict utf-8 decode, then
parse; either failure raises and is caught at the call sites. -/
def loadsBytes (bs : List Nat) : Except PyErr Json :=
  match utf8DecodeStrict bs with
  | some cs => jsonLoads cs
  | none => .error .unicodeDecodeError

/-! ### json.dumps and str() rendering

json.dumps with the source defaults: ensure_ascii (everything outside
0x20..0x7e escaped), separators ", " and ": ".  Floats render through their
exact decimal expansion; the scientific notation Python switches to for very
large or small floats is not modelled (never load-bearing: dumps output is
only compared against itself in the theorems). -/

def hexDigitCh (n : Nat) : Char :=
  if n < 10 then Char.ofNat (48 + n) else Char.ofNat (87 + n)

def uEsc (n : Nat) : List Char :=
  [chBackslash, 'u', hexDigitCh (n / 4096 % 16), hexDigitCh (n / 256 % 16),
   hexDigitCh (n / 16 % 16), hexDigitCh (n % 16)]

def escCh (c : Char) : List Char :=
  if c = chQuote then [chBackslash, chQuote]
  else if c = chBackslash then [chBackslash, chBackslash]
  else if c = '\n' then [chBackslash, 'n']
  else if c = '\t' then [chBackslash, 't']
  else if c = '\r' then [chBackslash, 'r']
  else if c = Char.ofNat 8 then [chBackslash, 'b']
  else if c = Char.ofNat 12 then [chBackslash, 'f']
  else if c.toNat < 32 || c.toNat > 126 then
    if c.toNat ≤ 65535 then uEsc c.toNat
    else
      let v := c.toNat - 65536
      uEsc (55296 + v / 1024) ++ uEsc (56320 + v % 1024)
  else [c]

def dumpsStr (s : String) : List Char :=
  chQuote :: (s.data.map escCh).flatten ++ [chQuote]

/-- Exact decimal rendering of the float mantissa·10^exponent, with the
trailing ".0" Python prints for integral floats. -/
def renderFloat (m : Int) (e : Int) : List Char :=
  if 0 ≤ e then intDigits (m * 10 ^ e.toNat) ++ ['.', '0']
  else
    let k := (-e).toNat
    let a := m.natAbs
    let ip := a / 10 ^ k
    let fracNat := a % 10 ^ k
    let fds := natDigits fracNat
    let padded := List.replicate (k - fds.length) '0' ++ fds
    let trimmed := (padded.reverse.dropWhile (fun c => c = '0')).reverse
    let frac := if trimmed.isEmpty then ['0'] else trimmed
    (if m < 0 then ['-'] else []) ++ natDigits ip ++ '.' :: frac

def renderNum (n : JsonNumber) : List Char :=
  if n.isFloat then renderFloat n.mantissa n.exponent
  else if 0 ≤ n.exponent then intDigits (n.mantissa * 10 ^ n.exponent.toNat)
  else renderFloat n.mantissa n.exponent

mutual

def dumps : Json → List Char
  | .null => "null".data
  | .bool b => if b then "true".data else "false".data
  | .num n => renderNum n
  | .str s => dumpsStr s
  | .arr xs => chLBrack :: dumpsElems xs ++ [chRBrack]
  | .obj kvs => chLBrace :: dumpsMembers kvs ++ [chRBrace]
  | .nan => "NaN".data
  | .inf => "Infinity".data
  | .ninf => "-Infinity".data

def dumpsElems : List Json → List Char
  | [] => []
  | [x] => dumps x
  | x :: y :: rest => dumps x ++ ',' :: ' ' :: dumpsElems (y :: rest)

def dumpsMembers : List (String × Json) → List Char
  | [] => []
  | [(k, v)] => dumpsStr k ++ ':' :: ' ' :: dumps v
  | (k, v) :: m :: rest =>
    dumpsStr k ++ ':' :: ' ' :: dumps v ++ ',' :: ' ' :: dumpsMembers (m :: rest)

end

def pyJsonDumps (j : Json) : String := String.mk (dumps j)

/-- Python repr of a str: single quotes unless the text holds a single quote
and no double quote; backslash, the chosen quote and the short control
characters escaped, other control characters as a hex escape.  (Printable
non-ASCII stays raw, as in Python.) -/
def reprStrBody (q : Char) (s : List Char) : List Char :=
  (s.map (fun c =>
    if c = chBackslash then [chBackslash, chBackslash]
    else if c = q then [chBackslash, q]
    else if c = '\n' then [chBackslash, 'n']
    else if c = '\t' then [chBackslash, 't']
    else if c = '\r' then [chBackslash, 'r']
    else if c.toNat < 32 || c.toNat = 127 then
      [chBackslash, 'x', hexDigitCh (c.toNat / 16), hexDigitCh (c.toNat % 16)]
    else [c])).flatten

def reprStr (s : String) : List Char :=
  let q := if s.data.contains chSQuote && !s.data.contains chQuote
    then chQuote else chSQuote
  q :: reprStrBody q s.data ++ [q]

mutual

/-- Python repr() of a decoded-JSON value (dict/list rendering with single
quoted strings, None / True / False, plain digits for numbers). -/
def pyRepr : Json → List Char
  | .null => "None".data
  | .bool b => if b then "True".data else "False".data
  | .num n =>
    if n.isFloat then renderFloat n.mantissa n.exponent
    else if 0 ≤ n.exponent then intDigits (n.mantissa * 10 ^ n.exponent.toNat)
    else renderFloat n.mantissa n.exponent
  | .str s => reprStr s
  | .arr xs => chLBrack :: pyReprElems xs ++ [chRBrack]
  | .obj kvs => chLBrace :: pyReprMembers kvs ++ [chRBrace]
  | .nan => "nan".data
  | .inf => "inf".data
  | .ninf => "-inf".data

def pyReprElems : List Json → List Char
  | [] => []
  | [x] => pyRepr x
  | x :: y :: rest => pyRepr x ++ ',' :: ' ' :: pyReprElems (y :: rest)

def pyReprMembers : List (String × Json) → List Char
  | [] => []
  | [(k, v)] => reprStr k ++ ':' :: ' ' :: pyRepr v
  | (k, v) :: m :: rest =>
    reprStr k ++ ':' :: ' ' :: pyRepr v ++ ',' :: ' ' :: pyReprMembers (m :: rest)

end

/-- Python str() of a decoded-JSON value, as an f-string or %s applies it:
identity on strings, repr on everything else. -/
def pyStr : Json → List Char
  | .str s => s.data
  | j => pyRepr j

/-! ### The observability extractor (pure functions from the source) -/

/-- The list-content branch of extract_prompt_from_body, per part:
`c.get("text") or c.get("input") or str(c)` for a dict-like part, `str(c)`
otherwise.  The result of the or-chain can be a non-str JSON value. -/
def partText (c : Json) : Json :=
  match c with
  | .obj kvs =>
    let t := (jlookup kvs "text").getD .null
    if pyTruthy t then t
    else
      let i := (jlookup kvs "input").getD .null
      if pyTruthy i then i
      else .str (String.mk (pyStr c))
  | _ => .str (String.mk (pyStr c))

def isStrJson : Json → Bool
  | .str _ => true
  | _ => false

def strJsonData : Json → List Char
  | .str s => s.data
  | _ => []

/-- The Python generator join `sep . join (t for t in ts if t)`: the truthy
elements joined; a truthy non-str element is a TypeError, as str join raises. -/
def joinTruthy (sep : List Char) (ts : List Json) : Except PyErr String :=
  let kept := ts.filter pyTruthy
  if kept.all isStrJson then
    .ok (String.mk (joinSep sep (kept.map strJsonData)))
  else .error .typeError

/-- The Python join of the whole list, no filter (the stream accumulator
join of the empty string). -/
def joinAll (ts : List Json) : Except PyErr String :=
  if ts.all isStrJson then
    .ok (String.mk (joinSep [] (ts.map strJsonData)))
  else .error .typeError

/-- One iteration of the message loop of extract_prompt_from_body. -/
def renderMessage (m : Json) : Except PyErr String := do
  let role ← pyGetD m "role" (.str "unknown")
  let content ← pyGet m "content"
  let rolePart := "[" ++ String.mk (pyStr role) ++ "] "
  match content with
  | .null =>
    -- content is None; when the loop got here, m.get succeeded, so m is a dict
    let extra :=
      match m with
      | .obj kvs =>
        if jhasKey kvs "tool_calls" && pyTruthy ((jlookup kvs "tool_calls").getD .null)
        then " (tool_calls)" else ""
      | _ => ""
    .ok (rolePart ++ "(no content)" ++ extra)
  | .str s => .ok (rolePart ++ s)
  | .arr xs =>
    let texts := xs.map partText
    let joined ← joinTruthy [' '] texts
    -- the appended line is replaced when texts is empty or has no truthy entry
    if xs.isEmpty || !(texts.any pyTruthy) then .ok (rolePart ++ "(empty parts)")
    else .ok (rolePart ++ joined)
  | other => .ok (rolePart ++ String.mk ((dumps other).take 500))

def renderMessages : List Json → Except PyErr (List String)
  | [] => .ok []
  | m :: rest => do
    let s ← renderMessage m
    let others ← renderMessages rest
    .ok (s :: others)

/-- extract_prompt_from_body of the source, with the dynamic operations
explicit: an exception anywhere propagates (the call site in the handler has
no try block around it). -/
def extract_prompt_from_body (body : Json) : Except PyErr String := do
  let hasMsgs ← pyIn "messages" body
  if hasMsgs then do
    let msgs ← pySubscript body "messages"
    let items ← pyIter msgs
    let parts ← renderMessages items
    if !parts.isEmpty then
      .ok (String.mk (joinSep ['\n'] (parts.map String.data)))
    else .ok (String.mk (dumps msgs))
  else do
    let hasPrompt ← pyIn "prompt" body
    if hasPrompt then do
      let p ← pySubscript body "prompt"
      match p with
      | .str s => .ok s
      | _ => .ok (pyJsonDumps p)
    else .ok "(prompt not found)"

structure Usage where
  prompt_tokens : Json
  completion_tokens : Json
  total_tokens : Json

/-- extract_usage_from_response of the source: usage is data.get("usage"),
replaced by the empty dict when falsy; the three counters default to 0. -/
def extract_usage_from_response (data : Json) : Except PyErr Usage := do
  let u0 ← pyGet data "usage"
  let usage := if pyTruthy u0 then u0 else Json.obj []
  let pt ← pyGetD usage "prompt_tokens" (Json.int 0)
  let ct ← pyGetD usage "completion_tokens" (Json.int 0)
  let tt ← pyGetD usage "total_tokens" (Json.int 0)
  .ok ⟨pt, ct, tt⟩

/-- Python `x[0]`: first element of a list, first character of a str, KeyError
on a dict (0 is not one of its string keys), TypeError otherwise. -/
def pyIndex0 (j : Json) : Except PyErr Json :=
  match j with
  | .arr (x :: _) => .ok x
  | .arr [] => .error .typeError
  | .str s =>
    match s.data with
    | c :: _ => .ok (.str (String.mk [c]))
    | [] => .error .typeError
  | .obj _ => .error .keyError
  | _ => .error .typeError

/-- extract_response_text of the source.  The `text` branch returns the raw
JSON value, which need not be a str; logging later applies str() to it. -/
def extract_response_text (data : Json) : Except PyErr Json := do
  let c0 ← pyGet data "choices"
  let choices := if pyTruthy c0 then c0 else Json.arr []
  if !pyTruthy choices then .ok (.str "(no choices)")
  else do
    let choice ← pyIndex0 choices
    let hasMsg ← pyIn "message" choice
    if hasMsg then do
      let msg ← pySubscript choice "message"
      let content ← pyGet msg "content"
      match content with
      | .str s => .ok (.str s)
      | _ => .ok (.str (pyJsonDumps content))
    else do
      let hasText ← pyIn "text" choice
      if hasText then pySubscript choice "text"
      else .ok (.str "(no content)")

/-! ### Streaming fragment extraction (the try block of the generator)

The generator body is, per chunk:
  yield chunk
  try:
    line = chunk.decode("utf-8", errors="replace")
    if line.strip().startswith("data: ") and "[DONE]" not in line:
      payload = line.split("data: ", 1)[1].strip()
      data = json.loads(payload)
      for choice in data.get("choices") or []:
        delta = choice.get("delta") or empty-dict
        if "content" in delta and delta["content"]:
          full_content.append(delta["content"])
  except Exception:
    pass
An exception inside the for loop keeps the appends already made; the except
clause swallows everything, so the step result is the appended values plus
the swallowed error, if any. -/

def extractChoicesLoop : List Json → List Json × Option PyErr
  | [] => ([], none)
  | choice :: rest =>
    match pyGet choice "delta" with
    | .error e => ([], some e)
    | .ok d =>
      let delta := if pyTruthy d then d else Json.obj []
      match pyIn "content" delta with
      | .error e => ([], some e)
      | .ok b =>
        if b then
          match pySubscript delta "content" with
          | .error e => ([], some e)
          | .ok v =>
            if pyTruthy v then
              let (more, err) := extractChoicesLoop rest
              (v :: more, err)
            else extractChoicesLoop rest
        else extractChoicesLoop rest

def sseMarker : List Char := "data: ".data

def extractFromChunk (chunk : List Nat) : List Json × Option PyErr :=
  -- line is chunk.decode("utf-8", errors="replace"), written out at each use
  if sseMarker.isPrefixOf (pyStrip (utf8DecodeReplace chunk)) &&
      !containsSub "[DONE]".data (utf8DecodeReplace chunk) then
    match jsonLoads (pyStrip (afterFirst sseMarker (utf8DecodeReplace chunk))) with
    | .error e => ([], some e)
    | .ok data =>
      match pyGet data "choices" with
      | .error e => ([], some e)
      | .ok cs0 =>
        let cs := if pyTruthy cs0 then cs0 else Json.arr []
        match pyIter cs with
        | .error e => ([], some e)
        | .ok items => extractChoicesLoop items
  else ([], none)

/-- The relay loop of the generator, parametric in the per-chunk try block:
each chunk is yielded first, unconditionally; whatever the try block appended
is accumulated and any error it reports is swallowed.  Returns the yielded
chunks and the final accumulator. -/
def streamRelayAux (extract : List Nat → List Json × Option PyErr) :
    List (List Nat) → List Json → List (List Nat) × List Json
  | [], acc => ([], acc)
  | c :: rest, acc =>
    let step := extract c
    let (ys, accF) := streamRelayAux extract rest (acc ++ step.1)
    (c :: ys, accF)

def streamRelay (extract : List Nat → List Json × Option PyErr)
    (chunks : List (List Nat)) : List (List Nat) × List Json :=
  streamRelayAux extract chunks []

/-! ### The relay dispatcher -/

inductive NetErr where
  | connectFailure
  | timeout
  | reset
deriving DecidableEq

structure Config where
  baseUrl : String
deriving DecidableEq

/-- VLLM_BASE_URL loading: the environment value (default
http://localhost:5678) with trailing slashes stripped. -/
def rstripSlash (s : String) : String :=
  String.mk ((s.data.reverse.dropWhile (fun c => c = '/')).reverse)

def loadConfig (env : Option String) : Config :=
  ⟨rstripSlash (env.getD "http://localhost:5678")⟩

/-- An inbound request as the handler sees it.  `path` is the value of the
FastAPI path parameter of the catch-all route: the URL path only — a query
string is not part of a `path`-convertor parameter, and the handler never
reads request.url.query, so `query` below flows nowhere. -/
structure InboundRequest where
  method : String
  path : String
  query : String
  headers : List (String × String)
  body : List Nat

/-- The target URL of the forwarding call, from the source:
url = base-url, a slash, then the path parameter. -/
def buildUpstreamUrl (cfg : Config) (req : InboundRequest) : String :=
  cfg.baseUrl ++ "/" ++ req.path

/-- headers = dict(request.headers) with "host" popped (Starlette header keys
are lowercase). -/
def removeHost (hs : List (String × String)) : List (String × String) :=
  hs.filter (fun kv => kv.1 ≠ "host")

def headerGet (hs : List (String × String)) (k : String) : Option String :=
  match hs with
  | [] => none
  | (k2, v) :: rest => if k2 = k then some v else headerGet rest k

def isWriteMethod (m : String) : Bool :=
  m = "POST" || m = "PUT" || m = "PATCH"

/-- The streaming test of the source:
request.headers.get("accept") == "text/event-stream"
or (body and body.get("stream")).
The or is short-circuit; a truthy non-dict body raises AttributeError on the
.get call. -/
def modeDecision (accept : Option String) (body : Option Json) :
    Except PyErr Bool :=
  if accept = some "text/event-stream" then .ok true
  else
    match body with
    | none => .ok false
    | some b =>
      if pyTruthy b then do
        let s ← pyGet b "stream"
        .ok (pyTruthy s)
      else .ok false

/-! ### Log line construction (logger.info formatting; %s is str()) -/

def logReqPromptMsg (p : String) : String := "=== REQUEST PROMPT ===\n" ++ p

def logStreamRespMsg (t : String) : String :=
  "=== RESPONSE PROMPT (stream) ===\n" ++ t

def logRespPromptMsg (t : Json) : String :=
  "=== RESPONSE PROMPT ===\n" ++ String.mk (pyStr t)

def logTokenUsageMsg (u : Usage) : String :=
  "=== TOKEN USAGE === prompt_tokens=" ++ String.mk (pyStr u.prompt_tokens) ++
  " completion_tokens=" ++ String.mk (pyStr u.completion_tokens) ++
  " total_tokens=" ++ String.mk (pyStr u.total_tokens)

/-- The debug-level line of the `except` clause of the buffered logging. -/
def logParseSkipMsg : String := "Response log parse skip"

/-! ### The streaming response -/

/-- StreamingResponse(stream(), status_code=200,
media_type="text/event-stream", headers=cache-control/connection): the
response head the caller receives, fixed before the generator — and hence
before the upstream connection — ever runs. -/
structure StreamingHead where
  status : Nat
  mediaType : String
  extraHeaders : List (String × String)
deriving DecidableEq

def mkStreamingHead : StreamingHead :=
  ⟨200, "text/event-stream",
   [("Cache-Control", "no-cache"), ("Connection", "keep-alive")]⟩

/-- A run of the streaming branch.  `delivered` is what upstream produced
before `fail` (if any) interrupted it; every delivered chunk is yielded.  On
an upstream failure the generator raises after the yields, skipping the
final log; a non-str accumulator makes the final join raise, also after all
yields. -/
def streamedRun (delivered : List (List Nat)) (fail : Option NetErr) :
    StreamingHead × List (List Nat) × List String :=
  let (relayed, acc) := streamRelay extractFromChunk delivered
  let logs :=
    match fail with
    | some _ => []
    | none =>
      if !acc.isEmpty then
        match joinAll acc with
        | .ok t => [logStreamRespMsg t]
        | .error _ => []
      else []
  (mkStreamingHead, relayed, logs)

/-! ### The buffered response -/

/-- The upstream response as httpx presents it: status, headers (keys
lowercase) and the body bytes of resp.content. -/
structure UpstreamResponse where
  status : Nat
  headers : List (String × String)
  content : List Nat

/-- The Response(...) the handler returns to the caller. -/
structure CallerResponse where
  status : Nat
  headers : List (String × String)
  mediaType : Option String
  body : List Nat

/-- The logging block of the buffered path: only on status 200 with a
non-empty body; resp.json() is a strict decode plus json.loads; any failure
inside the try block downgrades to the debug skip line, with the usage line
kept when it was already emitted. -/
def bufferedLogs (resp : UpstreamResponse) : List String :=
  if resp.status = 200 && !resp.content.isEmpty then
    match loadsBytes resp.content with
    | .error _ => [logParseSkipMsg]
    | .ok data =>
      match extract_usage_from_response data with
      | .error _ => [logParseSkipMsg]
      | .ok usage =>
        match extract_response_text data with
        | .error _ => [logTokenUsageMsg usage, logParseSkipMsg]
        | .ok t => [logTokenUsageMsg usage, logRespPromptMsg t]
  else []

/-- The buffered branch after the upstream call completed: log, then return
Response(content=resp.content, status_code=resp.status_code,
headers=dict(resp.headers), media_type=resp.headers.get("content-type")). -/
def finalizeBuffered (resp : UpstreamResponse) : List String × CallerResponse :=
  (bufferedLogs resp,
   ⟨resp.status, resp.headers, headerGet resp.headers "content-type",
    resp.content⟩)

/-! ### The request pipeline -/

/-- request.json(): attempted only for POST/PUT/PATCH with a non-blank path;
any exception yields None. -/
def parseBody (req : InboundRequest) : Option Json :=
  if isWriteMethod req.method && !(pyStrip req.path.data).isEmpty then
    (loadsBytes req.body).toOption
  else none

/-- Lines 101-103 of the source: when body is truthy and has a messages or a
prompt key, extract and log the request prompt.  The in tests and the
extraction run outside any try block, so their exceptions propagate. -/
def preForwardLogs (body : Option Json) : Except PyErr (List String) :=
  match body with
  | none => .ok []
  | some b =>
    if pyTruthy b then do
      let hasM ← pyIn "messages" b
      let cond ← if hasM then pure true else pyIn "prompt" b
      if cond then do
        let p ← extract_prompt_from_body b
        pure [logReqPromptMsg p]
      else pure []
    else .ok []

inductive Outcome where
  | streamed (head : StreamingHead) (relayed : List (List Nat))
      (logs : List String)
  | bufferedOut (logs : List String) (resp : CallerResponse)

/-- The proxy handler.  The upstream behaviour is an input: the buffered call
either fails at the network level or completes, the streaming call delivers
some chunks and then possibly fails.  The outer Except is an exception that
escapes the handler; the inner one is an httpx error of the buffered call
(re-raised, since the source has no try around the request call). -/
def proxyHandler (cfg : Config) (req : InboundRequest)
    (bufferedUpstream : Except NetErr UpstreamResponse)
    (streamUpstream : List (List Nat) × Option NetErr) :
    Except PyErr (List String × Except NetErr Outcome) := do
  let _url := buildUpstreamUrl cfg req
  let body := parseBody req
  let preLogs ← preForwardLogs body
  let _headers := removeHost req.headers
  let streaming ← modeDecision (headerGet req.headers "accept") body
  if streaming then
    let (head, relayed, slogs) := streamedRun streamUpstream.1 streamUpstream.2
    pure (preLogs, .ok (.streamed head relayed slogs))
  else
    match bufferedUpstream with
    | .error e => pure (preLogs, .error e)
    | .ok u =>
      let (logs, resp) := finalizeBuffered u
      pure (preLogs, .ok (.bufferedOut logs resp))

/-- The status line the caller sees.  An exception escaping the handler —
a Python error or the re-raised httpx error — is turned into a plain 500 by
the Starlette ServerErrorMiddleware default, the source installing no
exception handler of its own. -/
def frameworkStatus (r : Except PyErr (List String × Except NetErr Outcome)) :
    Nat :=
  match r with
  | .error _ => 500
  | .ok (_, .error _) => 500
  | .ok (_, .ok (.streamed h _ _)) => h.status
  | .ok (_, .ok (.bufferedOut _ resp)) => resp.status

def is5xx (s : Nat) : Bool := 500 ≤ s && s ≤ 599

def is2xx (s : Nat) : Bool := 200 ≤ s && s ≤ 299

/-! ### Routing -/

inductive Route where
  | proxyCatchAll
  | healthRoute
deriving DecidableEq

/-- The routes in registration order: the module body registers the
catch-all api_route first (line 88) and GET /health second (line 170). -/
def routeTable : List Route := [.proxyCatchAll, .healthRoute]

/-- Starlette route matching: the catch-all path-convertor route matches
every path for its listed methods; the health route matches GET /health. -/
def routeMatches (r : Route) (method path : String) : Bool :=
  match r with
  | .proxyCatchAll =>
    method = "GET" || method = "POST" || method = "PUT" || method = "DELETE"
      || method = "PATCH" || method = "OPTIONS"
  | .healthRoute => method = "GET" && path = "/health"

/-- Starlette dispatches to the first route in registration order whose
match is full. -/
def dispatch (method path : String) : Option Route :=
  routeTable.find? (fun r => routeMatches r method path)

/-- The body of the (shadowed) health handler. -/
def healthBody (cfg : Config) : Json :=
  .obj [("status", .str "ok"), ("vllm_base_url", .str cfg.baseUrl)]

/-- The UTF-8 bytes of an ASCII string (used to build concrete requests and
chunks; every character below 0x80 encodes as its own code point). -/
def asciiBytes (s : String) : List Nat := s.data.map Char.toNat

/-! ### Helper lemmas -/

/-- The relay loop yields exactly the chunks it was given, whatever the
per-chunk try block does with them. -/
theorem streamRelayAux_fst (extract : List Nat → List Json × Option PyErr) :
    ∀ (chunks : List (List Nat)) (acc : List Json),
      (streamRelayAux extract chunks acc).1 = chunks
  | [], _ => rfl
  | c :: rest, acc =>
    congrArg (List.cons c)
      (streamRelayAux_fst extract rest (acc ++ (extract c).1))

theorem streamRelay_fst (extract : List Nat → List Json × Option PyErr)
    (chunks : List (List Nat)) : (streamRelay extract chunks).1 = chunks :=
  streamRelayAux_fst extract chunks []

theorem jhasKey_true_of_lookup {kvs : List (String × Json)} {k : String}
    {v : Json} (h : jlookup kvs k = some v) : jhasKey kvs k = true := by
  induction kvs with
  | nil => simp [jlookup] at h
  | cons kv rest ih =>
    obtain ⟨k2, v2⟩ := kv
    by_cases hk : k2 = k
    · simp [jhasKey, hk]
    · simp only [jlookup, if_neg hk] at h
      simp [jhasKey, hk, ih h]

theorem jlookup_none_of_hasKey_false {kvs : List (String × Json)} {k : String}
    (h : jhasKey kvs k = false) : jlookup kvs k = none := by
  induction kvs with
  | nil => rfl
  | cons kv rest ih =>
    obtain ⟨k2, v2⟩ := kv
    simp only [jhasKey, Bool.or_eq_false_iff, decide_eq_false_iff_not] at h
    simp [jlookup, h.1, ih h.2]

/-! ### The claims -/

/-- C1: for every buffered request whose upstream call completes, the
response returned to the caller equals the upstream response exactly — same
status code, same body bytes, same content-type, and the header mapping is a
pass-through copy of the upstream headers with nothing added — whatever the
logging block did. -/
theorem c1_buffered_response_passthrough (u : UpstreamResponse) :
    (finalizeBuffered u).2.status = u.status ∧
    (finalizeBuffered u).2.body = u.content ∧
    (finalizeBuffered u).2.mediaType = headerGet u.headers "content-type" ∧
    (finalizeBuffered u).2.headers = u.headers :=
  ⟨rfl, rfl, rfl, rfl⟩

/-- C2: in streaming mode the yielded chunk sequence equals the received one
— and hence so does the byte concatenation — for an arbitrary per-chunk
extraction block (so in particular whether the real extractor succeeds or
reports a swallowed error), and for the real extractor; a failure never
aborts the relay or drops a chunk. -/
theorem c2_stream_byte_passthrough
    (extract : List Nat → List Json × Option PyErr)
    (chunks : List (List Nat)) (fail : Option NetErr) :
    (streamRelay extract chunks).1 = chunks ∧
    ((streamRelay extract chunks).1).flatten = chunks.flatten ∧
    (streamRelay extractFromChunk chunks).1 = chunks ∧
    (streamedRun chunks fail).2.1 = chunks := by
  refine ⟨streamRelay_fst extract chunks, ?_, streamRelay_fst _ chunks, ?_⟩
  · rw [streamRelay_fst]
  · show (streamedRun chunks fail).2.1 = chunks
    unfold streamedRun
    cases h : streamRelay extractFromChunk chunks with
    | mk ys acc =>
      have := streamRelay_fst extractFromChunk chunks
      rw [h] at this
      simpa using this

/-- C3: the claim says the query string of the inbound URL is preserved in
the constructed target URL.  It is not: the catch-all path parameter holds
the URL path only, the handler never reads request.url.query, and the
constructed URL base/path carries no query — on GET /v1/models?limit=5 the
upstream URL is http://localhost:5678/v1/models with the query dropped. -/
theorem c3_query_string_dropped :
    buildUpstreamUrl (loadConfig none) ⟨"GET", "v1/models", "limit=5", [], []⟩
      = "http://localhost:5678/v1/models" ∧
    containsSub "limit=5".data
      (buildUpstreamUrl (loadConfig none)
        ⟨"GET", "v1/models", "limit=5", [], []⟩).data = false ∧
    containsSub "?".data
      (buildUpstreamUrl (loadConfig none)
        ⟨"GET", "v1/models", "limit=5", [], []⟩).data = false := by
  refine ⟨rfl, by decide, by decide⟩

/-- C6: the claim says GET /health is answered locally with the health JSON.
In the source the catch-all route is registered before /health and Starlette
dispatches to the first full match, so GET /health reaches the proxy
catch-all (which forwards upstream); the health handler — whose route would
match and whose body is the claimed JSON — is unreachable. -/
theorem c6_health_route_shadowed :
    dispatch "GET" "/health" = some Route.proxyCatchAll ∧
    routeMatches Route.healthRoute "GET" "/health" = true ∧
    healthBody (loadConfig none) =
      Json.obj [("status", .str "ok"),
                ("vllm_base_url", .str "http://localhost:5678")] :=
  ⟨rfl, by decide, rfl⟩

/-- A 2001-character prompt, longer than the cap the claim asserts. -/
def longPrompt : String := String.mk (List.replicate 2001 'a')

/-- C7 counterexample: the log line built for a 2001-character request
prompt embeds the prompt whole — 2024 characters in total, no 2000-character
cap and no trailing ellipsis marker of either spelling. -/
theorem c7_counterexample :
    logReqPromptMsg longPrompt = "=== REQUEST PROMPT ===\n" ++ longPrompt ∧
    longPrompt.length = 2001 ∧
    (logReqPromptMsg longPrompt).length = 2024 ∧
    ¬ (logReqPromptMsg longPrompt).length ≤ 2000 ∧
    (logReqPromptMsg longPrompt).data.getLast? = some 'a' := by
  have hlen : longPrompt.length = 2001 := by
    rw [show longPrompt.length = (List.replicate 2001 'a').length from rfl,
        List.length_replicate]
  have hmsg : (logReqPromptMsg longPrompt).length = 2024 := by
    show ("=== REQUEST PROMPT ===\n" ++ longPrompt).length = 2024
    rw [String.length_append, hlen]
    decide
  refine ⟨rfl, hlen, hmsg, by rw [hmsg]; norm_num, ?_⟩
  show ("=== REQUEST PROMPT ===\n" ++ longPrompt).data.getLast? = some 'a'
  rw [show ("=== REQUEST PROMPT ===\n" ++ longPrompt).data
      = "=== REQUEST PROMPT ===\n".data ++ List.replicate 2001 'a' from rfl]
  rw [show (List.replicate 2001 'a') = List.replicate 2000 'a' ++ ['a'] by
      rw [← List.replicate_succ']]
  rw [← List.append_assoc,
      List.getLast?_append_of_ne_nil _ (show (['a'] : List Char) ≠ [] by simp)]
  rfl

/-- C7 amended: the logging sites emit the extracted text in full — no
2000-character cap, no ellipsis marker — and logging never changes the bytes
relayed to the caller in either mode. -/
theorem c7_logging_uncapped_and_harmless (p : String) (t : Json)
    (u : UpstreamResponse) (chunks : List (List Nat)) :
    logReqPromptMsg p = "=== REQUEST PROMPT ===\n" ++ p ∧
    logStreamRespMsg p = "=== RESPONSE PROMPT (stream) ===\n" ++ p ∧
    logRespPromptMsg t = "=== RESPONSE PROMPT ===\n" ++ String.mk (pyStr t) ∧
    (finalizeBuffered u).2.body = u.content ∧
    (streamRelay extractFromChunk chunks).1 = chunks :=
  ⟨rfl, rfl, rfl, rfl, streamRelay_fst _ chunks⟩

/-- C4 counterexample: a streaming request whose upstream call fails at the
network level is still answered with the 200 streaming head — the head is
fixed before the generator opens the upstream connection — so in streaming
mode a network failure delivers a 2xx to the caller, not a 5xx. -/
theorem c4_counterexample :
    proxyHandler (loadConfig none)
      ⟨"POST", "v1/chat/completions", "",
       [("accept", "text/event-stream")], []⟩
      (.error .connectFailure) ([], some .connectFailure)
      = .ok ([], .ok (.streamed mkStreamingHead [] [])) ∧
    mkStreamingHead.status = 200 ∧
    is2xx mkStreamingHead.status = true ∧
    is5xx mkStreamingHead.status = false :=
  ⟨rfl, rfl, by decide, by decide⟩

/-- C4 amended: in buffered mode an upstream network failure is re-raised by
the handler and surfaces as the framework 500 — in the 5xx class and never
2xx; in streaming mode the response head is fixed at status 200 before the
upstream call ever runs, so a network failure there leaves the caller with a
2xx head instead of a 5xx. -/
theorem c4_network_failure_status (cfg : Config) (req : InboundRequest)
    (su : List (List Nat) × Option NetErr) (e : NetErr) (pre : List String)
    (hpre : preForwardLogs (parseBody req) = .ok pre)
    (hmode : modeDecision (headerGet req.headers "accept") (parseBody req)
      = .ok false) :
    proxyHandler cfg req (.error e) su = .ok (pre, .error e) ∧
    frameworkStatus (proxyHandler cfg req (.error e) su) = 500 ∧
    is5xx (frameworkStatus (proxyHandler cfg req (.error e) su)) = true ∧
    is2xx (frameworkStatus (proxyHandler cfg req (.error e) su)) = false ∧
    (∀ delivered fail, (streamedRun delivered fail).1.status = 200) := by
  have h : proxyHandler cfg req (.error e) su = .ok (pre, .error e) := by
    simp only [proxyHandler, hpre, hmode]
    rfl
  refine ⟨h, ?_, ?_, ?_, fun delivered fail => rfl⟩
  · rw [h]; rfl
  · rw [h]; rfl
  · rw [h]; rfl

/-- C4 witness: a concrete buffered GET request with a timed-out upstream
call is answered with status 500. -/
theorem c4_witness :
    proxyHandler (loadConfig none) ⟨"GET", "v1/models", "", [], []⟩
      (.error .timeout) ([], none) = .ok ([], .error .timeout) ∧
    frameworkStatus (proxyHandler (loadConfig none)
      ⟨"GET", "v1/models", "", [], []⟩ (.error .timeout) ([], none)) = 500 :=
  ⟨(c4_network_failure_status (loadConfig none)
      ⟨"GET", "v1/models", "", [], []⟩ ([], none) .timeout [] rfl rfl).1,
   (c4_network_failure_status (loadConfig none)
      ⟨"GET", "v1/models", "", [], []⟩ ([], none) .timeout [] rfl rfl).2.1⟩

/-- C5 counterexample: the JSON text "hello" parses successfully to a truthy
non-object body; with a non-matching Accept header the claim says buffered
mode is selected, but the stream test calls .get on a str and raises
AttributeError, so no mode is selected and the request dies with a 500. -/
theorem c5_counterexample :
    loadsBytes (asciiBytes "\"hello\"") = .ok (Json.str "hello") ∧
    modeDecision none (some (Json.str "hello")) = .error .attributeError ∧
    modeDecision none (some (Json.str "hello")) ≠ .ok false ∧
    proxyHandler (loadConfig none)
      ⟨"POST", "v1/completions", "", [], asciiBytes "\"hello\""⟩
      (.ok ⟨200, [], []⟩) ([], none) = .error .attributeError ∧
    frameworkStatus (.error .attributeError) = 500 := by
  refine ⟨rfl, rfl, ?_, rfl, rfl⟩
  intro h
  exact Except.noConfusion h

/-- C5 amended: streaming is selected when the Accept header equals
text/event-stream, or (otherwise) when the parsed JSON body is an object
whose stream member is truthy; with no body or a falsy body buffered mode is
selected; a truthy non-object body raises AttributeError instead of
selecting a mode.  The decision is a pure function of the header and parsed
body, made before the upstream call. -/
theorem c5_mode_selection (accept : Option String) (b : Json)
    (kvs : List (String × Json)) :
    (modeDecision (some "text/event-stream") (some b) = .ok true) ∧
    (modeDecision (some "text/event-stream") none = .ok true) ∧
    (accept ≠ some "text/event-stream" →
      modeDecision accept none = .ok false) ∧
    (accept ≠ some "text/event-stream" → pyTruthy b = false →
      modeDecision accept (some b) = .ok false) ∧
    (accept ≠ some "text/event-stream" →
      modeDecision accept (some (Json.obj kvs)) =
        .ok (pyTruthy ((jlookup kvs "stream").getD .null))) ∧
    (accept ≠ some "text/event-stream" → pyTruthy b = true →
      (∀ kvs2, b ≠ Json.obj kvs2) →
      modeDecision accept (some b) = .error .attributeError) := by
  refine ⟨rfl, rfl, ?_, ?_, ?_, ?_⟩
  · intro h
    simp only [modeDecision, if_neg h]
  · intro h hb
    simp only [modeDecision, if_neg h, hb]
    rfl
  · intro h
    simp only [modeDecision, if_neg h]
    cases kvs with
    | nil => rfl
    | cons kv rest => rfl
  · intro h hb hnotobj
    cases b with
    | obj kvs2 => exact absurd rfl (hnotobj kvs2)
    | null => simp [pyTruthy] at hb
    | bool b2 =>
      simp only [modeDecision, if_neg h, hb]
      rfl
    | num n =>
      simp only [modeDecision, if_neg h, hb]
      rfl
    | str s =>
      simp only [modeDecision, if_neg h, hb]
      rfl
    | arr xs =>
      simp only [modeDecision, if_neg h, hb]
      rfl
    | nan =>
      simp only [modeDecision, if_neg h, hb]
      rfl
    | inf =>
      simp only [modeDecision, if_neg h, hb]
      rfl
    | ninf =>
      simp only [modeDecision, if_neg h, hb]
      rfl

/-- C5 witness: an object body with a truthy stream member selects streaming
even without the Accept header. -/
theorem c5_witness :
    modeDecision none (some (Json.obj [("stream", Json.bool true)]))
      = .ok true := by
  have h := (c5_mode_selection none Json.null
    [("stream", Json.bool true)]).2.2.2.2.1 (by simp)
  exact h

/-- C8: on a JSON object body with no messages key: a string prompt value is
returned unchanged with no re-serialization; a non-string prompt value is
returned serialized with json.dumps; with neither key the sentinel
"(prompt not found)" is returned. -/
theorem c8_prompt_extraction (kvs : List (String × Json))
    (hm : jhasKey kvs "messages" = false) :
    (∀ s, jlookup kvs "prompt" = some (Json.str s) →
      extract_prompt_from_body (Json.obj kvs) = .ok s) ∧
    (∀ p, jlookup kvs "prompt" = some p → (∀ s, p ≠ Json.str s) →
      extract_prompt_from_body (Json.obj kvs) = .ok (pyJsonDumps p)) ∧
    (jhasKey kvs "prompt" = false →
      extract_prompt_from_body (Json.obj kvs) = .ok "(prompt not found)") := by
  refine ⟨?_, ?_, ?_⟩
  · intro s hp
    have hk := jhasKey_true_of_lookup hp
    simp only [extract_prompt_from_body, pyIn, pySubscript, hm, hk, hp]
    rfl
  · intro p hp hns
    have hk := jhasKey_true_of_lookup hp
    cases p with
    | str s => exact absurd rfl (hns s)
    | null =>
      simp only [extract_prompt_from_body, pyIn, pySubscript, hm, hk, hp]
      rfl
    | bool b =>
      simp only [extract_prompt_from_body, pyIn, pySubscript, hm, hk, hp]
      rfl
    | num n =>
      simp only [extract_prompt_from_body, pyIn, pySubscript, hm, hk, hp]
      rfl
    | arr xs =>
      simp only [extract_prompt_from_body, pyIn, pySubscript, hm, hk, hp]
      rfl
    | obj kvs2 =>
      simp only [extract_prompt_from_body, pyIn, pySubscript, hm, hk, hp]
      rfl
    | nan =>
      simp only [extract_prompt_from_body, pyIn, pySubscript, hm, hk, hp]
      rfl
    | inf =>
      simp only [extract_prompt_from_body, pyIn, pySubscript, hm, hk, hp]
      rfl
    | ninf =>
      simp only [extract_prompt_from_body, pyIn, pySubscript, hm, hk, hp]
      rfl
  · intro hnp
    simp only [extract_prompt_from_body, pyIn, hm, hnp]
    rfl

/-- C8 witness: a concrete string prompt comes back unchanged. -/
theorem c8_witness :
    extract_prompt_from_body (Json.obj [("prompt", Json.str "tell me a joke")])
      = .ok "tell me a joke" :=
  (c8_prompt_extraction [("prompt", Json.str "tell me a joke")] rfl).1
    "tell me a joke" rfl

/-- C9: on a response object whose usage member is an object, the extractor
returns exactly the stored prompt_tokens / completion_tokens / total_tokens
values, each defaulting to 0 when that field is absent; with no usage key at
all it returns 0 / 0 / 0. -/
theorem c9_usage_extraction (d u : List (String × Json)) :
    (jlookup d "usage" = some (Json.obj u) →
      extract_usage_from_response (Json.obj d) =
        .ok ⟨(jlookup u "prompt_tokens").getD (Json.int 0),
             (jlookup u "completion_tokens").getD (Json.int 0),
             (jlookup u "total_tokens").getD (Json.int 0)⟩) ∧
    (jhasKey d "usage" = false →
      extract_usage_from_response (Json.obj d) =
        .ok ⟨Json.int 0, Json.int 0, Json.int 0⟩) := by
  constructor
  · intro h
    cases u with
    | nil =>
      simp only [extract_usage_from_response, pyGet, pyGetD, h]
      rfl
    | cons kv rest =>
      simp only [extract_usage_from_response, pyGet, pyGetD, h]
      rfl
  · intro h
    have hn := jlookup_none_of_hasKey_false h
    simp only [extract_usage_from_response, pyGet, pyGetD, hn]
    rfl

/-- C9 witness: the spec example usage object 10 / 5 / 15 comes back exactly,
and a response without usage yields 0 / 0 / 0. -/
theorem c9_witness :
    extract_usage_from_response (Json.obj [("usage", Json.obj
      [("prompt_tokens", Json.int 10), ("completion_tokens", Json.int 5),
       ("total_tokens", Json.int 15)])])
      = .ok ⟨Json.int 10, Json.int 5, Json.int 15⟩ ∧
    extract_usage_from_response (Json.obj [("choices", Json.arr [])])
      = .ok ⟨Json.int 0, Json.int 0, Json.int 0⟩ :=
  ⟨(c9_usage_extraction [("usage", Json.obj
      [("prompt_tokens", Json.int 10), ("completion_tokens", Json.int 5),
       ("total_tokens", Json.int 15)])]
      [("prompt_tokens", Json.int 10), ("completion_tokens", Json.int 5),
       ("total_tokens", Json.int 15)]).1 rfl,
   (c9_usage_extraction [("choices", Json.arr [])] []).2 rfl⟩

/-- The concrete chunks of the C10 scenarios: a complete one-delta frame, the
two halves of that frame split inside its JSON payload, the two halves of
the same frame split after the complete payload (before the trailing blank
line), a frame sharing its chunk with the DONE marker, and two frames
sharing one chunk. -/
def c10Chunk : List Nat :=
  asciiBytes "data: \x7b\"choices\":[\x7b\"delta\":\x7b\"content\":\"Hel\"\x7d\x7d]\x7d\n\n"

def c10SplitA : List Nat := asciiBytes "data: \x7b\"choices\":[\x7b\"delta\":\x7b\"co"

def c10SplitB : List Nat := asciiBytes "ntent\":\"Hel\"\x7d\x7d]\x7d\n\n"

def c10SplitPayloadA : List Nat :=
  asciiBytes "data: \x7b\"choices\":[\x7b\"delta\":\x7b\"content\":\"Hel\"\x7d\x7d]\x7d"

def c10SplitPayloadB : List Nat := asciiBytes "\n\n"

def c10WithDone : List Nat :=
  asciiBytes
    "data: \x7b\"choices\":[\x7b\"delta\":\x7b\"content\":\"Hi\"\x7d\x7d]\x7d\n\ndata: [DONE]\n\n"

def c10TwoFrames : List Nat :=
  asciiBytes "data: \x7b\"choices\":[]\x7d\ndata: \x7b\"choices\":[]\x7d\n"

/-- C10 counterexample: the claim says that for every SSE frame split across
two chunks nothing is appended.  False: split the frame of c10Chunk right
after its complete JSON payload — the two halves concatenate back to the
frame, yet the first half passes every guard (its stripped text starts with
the marker, holds no DONE, and its post-marker text is complete JSON), so
that chunk does append its delta content "Hel". -/
theorem c10_counterexample :
    c10SplitPayloadA ++ c10SplitPayloadB = c10Chunk ∧
    (extractFromChunk c10SplitPayloadA).1 = [Json.str "Hel"] ∧
    (extractFromChunk c10SplitPayloadA).1 ≠ [] ∧
    (extractFromChunk c10SplitPayloadB).1 = [] := by
  refine ⟨by decide, rfl, ?_, rfl⟩
  rw [show (extractFromChunk c10SplitPayloadA).1 = [Json.str "Hel"] from rfl]
  simp

/-- C10 amended: a chunk contributes to the accumulator only when its
decoded text, stripped, starts with the marker "data: ", the decoded chunk
nowhere contains "[DONE]", and the text after the first marker parses as
JSON; conversely, every chunk failing any one of the three guards — a chunk
whose stripped text lacks the marker prefix (such as the tail half of a
split frame), a chunk containing "[DONE]" anywhere, a chunk whose
post-marker text is not one JSON document (such as the head half of a
mid-payload split, or several frames in one chunk) — contributes nothing;
and every chunk is relayed to the caller unchanged regardless. -/
theorem c10_chunk_extraction_guard (chunk : List Nat) :
    ((extractFromChunk chunk).1 ≠ [] →
      sseMarker.isPrefixOf (pyStrip (utf8DecodeReplace chunk)) = true ∧
      containsSub "[DONE]".data (utf8DecodeReplace chunk) = false ∧
      (∃ j, jsonLoads (pyStrip (afterFirst sseMarker
          (utf8DecodeReplace chunk))) = Except.ok j)) ∧
    (sseMarker.isPrefixOf (pyStrip (utf8DecodeReplace chunk)) = false →
      (extractFromChunk chunk).1 = []) ∧
    (containsSub "[DONE]".data (utf8DecodeReplace chunk) = true →
      (extractFromChunk chunk).1 = []) ∧
    (∀ e, jsonLoads (pyStrip (afterFirst sseMarker (utf8DecodeReplace chunk)))
        = Except.error e → (extractFromChunk chunk).1 = []) ∧
    (∀ chunks, (streamRelay extractFromChunk chunks).1 = chunks) := by
  refine ⟨?_, ?_, ?_, ?_, streamRelay_fst _⟩
  · intro h
    unfold extractFromChunk at h
    by_cases hg : (sseMarker.isPrefixOf (pyStrip (utf8DecodeReplace chunk)) &&
        !containsSub "[DONE]".data (utf8DecodeReplace chunk)) = true
    · rw [if_pos hg] at h
      obtain ⟨h1, h2⟩ := Bool.and_eq_true_iff.mp hg
      cases hj : jsonLoads (pyStrip (afterFirst sseMarker
          (utf8DecodeReplace chunk))) with
      | error e => rw [hj] at h; exact absurd rfl h
      | ok j => exact ⟨h1, by simpa using h2, ⟨j, rfl⟩⟩
    · rw [if_neg hg] at h
      exact absurd rfl h
  · intro hp
    unfold extractFromChunk
    rw [if_neg (by simp [hp])]
  · intro hd
    unfold extractFromChunk
    rw [if_neg (by simp [hd])]
  · intro e he
    unfold extractFromChunk
    by_cases hg : (sseMarker.isPrefixOf (pyStrip (utf8DecodeReplace chunk)) &&
        !containsSub "[DONE]".data (utf8DecodeReplace chunk)) = true
    · rw [if_pos hg, he]
    · rw [if_neg hg]

/-- C10 witness: the complete one-delta frame chunk contributes "Hel" and
satisfies all three guards; the mid-payload split halves, the DONE-bearing
chunk and the two-frame chunk each fail a guard and contribute nothing. -/
theorem c10_witness :
    extractFromChunk c10Chunk = ([Json.str "Hel"], none) ∧
    sseMarker.isPrefixOf (pyStrip (utf8DecodeReplace c10Chunk)) = true ∧
    containsSub "[DONE]".data (utf8DecodeReplace c10Chunk) = false ∧
    (extractFromChunk c10SplitA).1 = [] ∧
    (extractFromChunk c10SplitB).1 = [] ∧
    (extractFromChunk c10WithDone).1 = [] ∧
    (extractFromChunk c10TwoFrames).1 = [] := by
  have h := (c10_chunk_extraction_guard c10Chunk).1 (by
    rw [show extractFromChunk c10Chunk = ([Json.str "Hel"], none) from rfl]
    simp)
  refine ⟨rfl, h.1, h.2.1, ?_, ?_, ?_, ?_⟩
  · exact (c10_chunk_extraction_guard c10SplitA).2.2.2.1 .jsonDecodeError rfl
  · exact (c10_chunk_extraction_guard c10SplitB).2.1 rfl
  · exact (c10_chunk_extraction_guard c10WithDone).2.2.1 rfl
  · exact (c10_chunk_extraction_guard c10TwoFrames).2.2.2.1 .jsonDecodeError rfl

end VllmProxy
